import Mathlib

/-!
Verification of the change-detection core of the `watchdog_v2` Excel
monitor.  The definitions below are a shallow embedding of the Python
sources:

* `src/core/comparison.py`  — `classify_change_type`,
  `has_external_reference`, `analyze_meaningful_changes`, the on-screen
  diff filtering of `compare_excel_changes` (lines 224-226) and the
  control flow of `compare_excel_changes` itself;
* `src/core/excel_parser.py` — the per-sheet cell extraction of
  `dump_excel_cells_with_timeout`;
* `src/utils/cache.py`      — `copy_to_cache`;
* `src/core/watcher.py`     — the `ActivePollingHandler` timer table;
* `src/config/settings.py`  — the configuration switches.

Python dicts are modelled as association lists compared through their
lookup function, machine scalars as `Int`/`Rat`/`String`, raised
exceptions as `Except` values, and `None` as `Option.none`.
-/

namespace Watchdog

/-- Scalar values that `serialize_cell_value` (src/core/excel_parser.py,
lines 171-183) can place in a cell record: strings (including ISO
timestamps and the `str(...)` fallback), integers and booleans.  Python
floats are omitted: the sources only ever compare stored values for
equality, and no claim depends on float arithmetic.  Lean equality on
`Val` models Python `==` on the stored scalars. -/
inductive Val where
  | str (s : String)
  | int (n : Int)
  | bool (b : Bool)
deriving DecidableEq, Repr

/-- One cell record as built by `dump_excel_cells_with_timeout`
(src/core/excel_parser.py line 307): a dict with keys `formula` and
`value`, plus sometimes an extra `cached_value` key added by the optional
phase-2 pass (line 341).  `cached = none` models the key being absent;
`cached = some v` models the key being present and holding `v`, which is
itself an optional scalar because the stored cached value may be `None`.
Lean equality of `Cell` models Python dict equality of these records
(same key set, equal values). -/
structure Cell where
  formula : Option String
  value : Option Val
  cached : Option (Option Val)
deriving DecidableEq, Repr

/-- The change categories returned by `classify_change_type`
(src/core/comparison.py lines 311-326), as string tags in the source. -/
inductive ChangeType where
  | CELL_ADDED
  | CELL_DELETED
  | FORMULA_CHANGE
  | DIRECT_VALUE_CHANGE
  | EXTERNAL_REF_UPDATE
  | INDIRECT_CHANGE
  | NO_CHANGE
deriving DecidableEq, Repr

/-- The apostrophe character, kept as a named constant so that the two
substring patterns of `has_external_reference` can be written without
embedding a quote character in a string literal. -/
def sq : Char := Char.ofNat 39

/-- `pat <:infix:> s` at the character-list level: does `pat` occur as a
contiguous substring of `s`?  This models the Python `in` operator on
strings (`"['" in formula`). -/
def hasInfixChars (pat : List Char) : List Char → Bool
  | [] => pat.isEmpty
  | c :: rest => pat.isPrefixOf (c :: rest) || hasInfixChars pat rest

/-- Python `pat in s` for strings. -/
def strContainsSub (s pat : String) : Bool :=
  hasInfixChars pat.data s.data

/-- The pattern `bracket-quote` checked by `has_external_reference`. -/
def extPat1 : String := String.mk ['[', sq]

/-- The pattern `bang-quote` checked by `has_external_reference`. -/
def extPat2 : String := String.mk ['!', sq]

/-- src/core/comparison.py lines 328-330:
`if not formula: return False` then a substring test for the two
two-character patterns.  The argument is the optional formula string of a
cell; `None` and the empty string are falsy in Python. -/
def has_external_reference : Option String → Bool
  | none => false
  | some s => if s = "" then false else (strContainsSub s extPat1 || strContainsSub s extPat2)

/-- Python truthiness of an optional formula string, as used by
`classify_change_type` (`not old_formula`): `None` and `""` are falsy. -/
def formulaTruthy : Option String → Bool
  | none => false
  | some s => !(s == "")

/-- src/core/comparison.py lines 311-326, `classify_change_type`.
The two arguments model the dicts passed by `analyze_meaningful_changes`:
`none` stands for the empty-dict default `old_ws.get(addr, {})` (falsy in
Python), `some c` for a present cell record (such records always carry a
`formula` and a `value` key, hence are truthy).  `old_cell.get('value')`
on the empty dict yields `None`, modelled by `Option.bind`. -/
def classify_change_type (old_cell new_cell : Option Cell) : ChangeType :=
  let old_val := old_cell.bind Cell.value
  let new_val := new_cell.bind Cell.value
  let old_formula := old_cell.bind Cell.formula
  let new_formula := new_cell.bind Cell.formula
  if old_cell = none ∧ new_cell ≠ none then .CELL_ADDED
  else if old_cell ≠ none ∧ new_cell = none then .CELL_DELETED
  else if old_formula ≠ new_formula then .FORMULA_CHANGE
  else if formulaTruthy old_formula = false ∧ formulaTruthy new_formula = false ∧
      old_val ≠ new_val then .DIRECT_VALUE_CHANGE
  else if formulaTruthy old_formula = true ∧ formulaTruthy new_formula = true ∧
      old_formula = new_formula ∧ old_val ≠ new_val then
    (if has_external_reference old_formula then .EXTERNAL_REF_UPDATE else .INDIRECT_CHANGE)
  else .NO_CHANGE

/-- The configuration switches of src/config/settings.py that the
comparison pipeline reads.  `QUICK_SKIP_BY_STAT` is an `Option` because
`config/settings.py` never assigns that name: `none` models the module
attribute being absent (so that `settings.QUICK_SKIP_BY_STAT` raises
`AttributeError`), `some b` models a value injected from outside the
sources.  `MTIME_TOLERANCE_SEC` is likewise absent and is always read
through `getattr(..., 2.0)`. -/
structure Settings where
  TRACK_EXTERNAL_REFERENCES : Bool
  TRACK_DIRECT_VALUE_CHANGES : Bool
  TRACK_FORMULA_CHANGES : Bool
  IGNORE_INDIRECT_CHANGES : Bool
  QUICK_SKIP_BY_STAT : Option Bool
  MTIME_TOLERANCE_SEC : Option Rat
  AUTO_UPDATE_BASELINE_AFTER_COMPARE : Bool
  USE_LOCAL_CACHE : Bool
  STRICT_NO_ORIGINAL_READ : Bool
  COPY_RETRY_COUNT : Int
  CACHE_FOLDER : String
deriving DecidableEq, Repr

/-- The values assigned in src/config/settings.py (lines 9-32):
all four tracking switches on, `IGNORE_INDIRECT_CHANGES = True`,
`QUICK_SKIP_BY_STAT` and `MTIME_TOLERANCE_SEC` never defined,
`AUTO_UPDATE_BASELINE_AFTER_COMPARE = True`, `USE_LOCAL_CACHE = True`,
`STRICT_NO_ORIGINAL_READ = True`, `COPY_RETRY_COUNT = 8`. -/
def defaultSettings : Settings where
  TRACK_EXTERNAL_REFERENCES := true
  TRACK_DIRECT_VALUE_CHANGES := true
  TRACK_FORMULA_CHANGES := true
  IGNORE_INDIRECT_CHANGES := true
  QUICK_SKIP_BY_STAT := none
  MTIME_TOLERANCE_SEC := none
  AUTO_UPDATE_BASELINE_AFTER_COMPARE := true
  USE_LOCAL_CACHE := true
  STRICT_NO_ORIGINAL_READ := true
  COPY_RETRY_COUNT := 8
  CACHE_FOLDER := "C:\\Users\\user\\Desktop\\watchdog\\cache_folder"

/-- One worksheet of a snapshot: the dict mapping cell address to cell
record.  Modelled as an association list; Python dict lookup is
`sheetGet`. -/
abbrev Sheet := List (String × Cell)

/-- Python `ws.get(addr)` on a sheet dict. -/
def sheetGet (ws : Sheet) (addr : String) : Option Cell :=
  (ws.find? (fun p => p.1 = addr)).map Prod.snd

/-- `set(old_ws.keys()) | set(new_ws.keys())` of
`analyze_meaningful_changes` (src/core/comparison.py line 282): the union
of the two key sets.  Python set iteration order is unspecified, so the
produced change list is only ever reasoned about up to membership. -/
def allAddresses (old_ws new_ws : Sheet) : List String :=
  (old_ws.map Prod.fst ++ new_ws.map Prod.fst).dedup

/-- The per-category filter of `analyze_meaningful_changes`
(src/core/comparison.py lines 294-298): a change is dropped when its
category's tracking switch is off (or, for indirect changes, when
`IGNORE_INDIRECT_CHANGES` is on).  `CELL_ADDED`, `CELL_DELETED` and
`NO_CHANGE` never match any of the four conditions. -/
def suppressed_by_settings (cfg : Settings) (ct : ChangeType) : Bool :=
  (decide (ct = .FORMULA_CHANGE) && !cfg.TRACK_FORMULA_CHANGES) ||
  (decide (ct = .DIRECT_VALUE_CHANGE) && !cfg.TRACK_DIRECT_VALUE_CHANGES) ||
  (decide (ct = .EXTERNAL_REF_UPDATE) && !cfg.TRACK_EXTERNAL_REFERENCES) ||
  (decide (ct = .INDIRECT_CHANGE) && cfg.IGNORE_INDIRECT_CHANGES)

/-- One change record appended by `analyze_meaningful_changes`
(src/core/comparison.py lines 300-307). -/
structure ChangeRecord where
  address : String
  old_value : Option Val
  new_value : Option Val
  old_formula : Option String
  new_formula : Option String
  change_type : ChangeType
deriving DecidableEq, Repr

/-- The body of the `for addr in all_addresses` loop of
`analyze_meaningful_changes` (src/core/comparison.py lines 284-307) for a
single address: skip when the two records are equal (Python `==` on the
dicts, with `{}` for a missing address), otherwise classify, apply the
settings filter, and build the record. -/
def analyzeAt (cfg : Settings) (old_ws new_ws : Sheet) (addr : String) :
    Option ChangeRecord :=
  let old_cell := sheetGet old_ws addr
  let new_cell := sheetGet new_ws addr
  if old_cell = new_cell then none
  else
    let ct := classify_change_type old_cell new_cell
    if suppressed_by_settings cfg ct then none
    else some
      { address := addr
        old_value := old_cell.bind Cell.value
        new_value := new_cell.bind Cell.value
        old_formula := old_cell.bind Cell.formula
        new_formula := new_cell.bind Cell.formula
        change_type := ct }

/-- src/core/comparison.py lines 277-309, `analyze_meaningful_changes`. -/
def analyze_meaningful_changes (cfg : Settings) (old_ws new_ws : Sheet) :
    List ChangeRecord :=
  (allAddresses old_ws new_ws).filterMap (analyzeAt cfg old_ws new_ws)

/-- The addresses selected for the on-screen diff by
`compare_excel_changes` (src/core/comparison.py lines 224-226):
`display_old` / `display_new` keep exactly the addresses of the union at
which the two sheet dicts disagree.  Note that no configuration value
enters this selection. -/
def display_addresses (old_ws new_ws : Sheet) : List String :=
  (allAddresses old_ws new_ws).filter
    (fun addr => sheetGet old_ws addr ≠ sheetGet new_ws addr)

end Watchdog

namespace Watchdog

/-- Swap of change categories under exchanging the roles of baseline and
current: `CELL_ADDED` and `CELL_DELETED` trade places, every other
category is fixed. -/
def swapCat : ChangeType → ChangeType
  | .CELL_ADDED => .CELL_DELETED
  | .CELL_DELETED => .CELL_ADDED
  | ct => ct

/-- Swap of a change record under exchanging baseline and current: old
and new values and formulas trade places and the category is swapped. -/
def swapRecord (r : ChangeRecord) : ChangeRecord :=
  { address := r.address
    old_value := r.new_value
    new_value := r.old_value
    old_formula := r.new_formula
    new_formula := r.old_formula
    change_type := swapCat r.change_type }

theorem swapCat_swapCat (ct : ChangeType) : swapCat (swapCat ct) = ct := by
  cases ct <;> rfl

theorem swapRecord_swapRecord (r : ChangeRecord) : swapRecord (swapRecord r) = r := by
  cases r; simp [swapRecord, swapCat_swapCat]

theorem suppressed_swapCat (cfg : Settings) (ct : ChangeType) :
    suppressed_by_settings cfg (swapCat ct) = suppressed_by_settings cfg ct := by
  cases ct <;> rfl

theorem classify_swap (o n : Option Cell) :
    classify_change_type n o = swapCat (classify_change_type o n) := by
  cases o with
  | none =>
    cases n with
    | none => decide
    | some c => simp [classify_change_type, swapCat]
  | some a =>
    cases n with
    | none => simp [classify_change_type, swapCat]
    | some b =>
      by_cases hf : a.formula = b.formula
      · by_cases hv : a.value = b.value
        · simp [classify_change_type, swapCat, hf, hv]
        · by_cases ht : formulaTruthy b.formula = true
          · cases hext : has_external_reference b.formula <;>
              simp [classify_change_type, swapCat, hf, hv, ht, Ne.symm hv, hext]
          · simp only [Bool.not_eq_true] at ht
            simp [classify_change_type, swapCat, hf, hv, ht, Ne.symm hv]
      · simp [classify_change_type, swapCat, hf, Ne.symm hf]

theorem analyzeAt_symm (cfg : Settings) (A B : Sheet) (addr : String) :
    analyzeAt cfg B A addr = (analyzeAt cfg A B addr).map swapRecord := by
  unfold analyzeAt
  by_cases h : sheetGet A addr = sheetGet B addr
  · simp [h]
  · simp only [h, Ne.symm h, if_neg, if_pos]
    rw [classify_swap (sheetGet A addr) (sheetGet B addr), suppressed_swapCat]
    by_cases hs : suppressed_by_settings cfg (classify_change_type (sheetGet A addr) (sheetGet B addr)) = true
    · simp [hs]
    · simp only [Bool.not_eq_true] at hs
      simp [hs, swapRecord]

theorem mem_allAddresses_symm (A B : Sheet) (addr : String) :
    addr ∈ allAddresses A B ↔ addr ∈ allAddresses B A := by
  simp [allAddresses, List.mem_dedup, List.mem_append, or_comm]

end Watchdog

namespace Watchdog

theorem analyzeAt_address {cfg : Settings} {o n : Sheet} {a : String}
    {rec : ChangeRecord} (h : analyzeAt cfg o n a = some rec) :
    rec.address = a := by
  unfold analyzeAt at h
  by_cases h1 : sheetGet o a = sheetGet n a
  · simp [h1] at h
  · simp only [if_neg h1] at h
    by_cases h2 : suppressed_by_settings cfg
        (classify_change_type (sheetGet o a) (sheetGet n a)) = true
    · simp [h2] at h
    · simp only [Bool.not_eq_true] at h2
      simp only [h2, Bool.false_eq_true, if_false] at h
      rw [Option.some_inj] at h
      rw [← h]

theorem analyzeAt_none_of_eq {cfg : Settings} {o n : Sheet} {a : String}
    (h : sheetGet o a = sheetGet n a) : analyzeAt cfg o n a = none := by
  simp [analyzeAt, h]

theorem mem_keys_of_sheetGet {ws : Sheet} {addr : String} {c : Cell}
    (h : sheetGet ws addr = some c) : addr ∈ ws.map Prod.fst := by
  unfold sheetGet at h
  cases hf : ws.find? (fun p => p.1 = addr) with
  | none => rw [hf] at h; exact absurd h (by simp)
  | some p =>
    have hp : p.1 = addr := by simpa using List.find?_some hf
    have hmem := List.mem_of_find?_eq_some hf
    rw [← hp]
    exact List.mem_map_of_mem Prod.fst hmem

theorem mem_allAddresses_of_ne {o n : Sheet} {addr : String}
    (h : sheetGet o addr ≠ sheetGet n addr) : addr ∈ allAddresses o n := by
  simp only [allAddresses, List.mem_dedup, List.mem_append]
  rcases hx : sheetGet o addr with _ | c
  · rcases hy : sheetGet n addr with _ | c
    · rw [hx, hy] at h; exact absurd rfl h
    · exact Or.inr (mem_keys_of_sheetGet hy)
  · exact Or.inl (mem_keys_of_sheetGet hx)

/-- The on-screen diff of `compare_excel_changes` shows exactly the
addresses at which the two sheet dicts disagree
(src/core/comparison.py lines 224-226). -/
theorem mem_display_addresses_iff (o n : Sheet) (addr : String) :
    addr ∈ display_addresses o n ↔ sheetGet o addr ≠ sheetGet n addr := by
  unfold display_addresses
  rw [List.mem_filter]
  constructor
  · rintro ⟨-, h⟩
    simpa using h
  · intro h
    exact ⟨mem_allAddresses_of_ne h, by simpa using h⟩

theorem analyzeAt_cfg_indep {cfg cfg2 : Settings} {o n : Sheet} {a : String}
    {rec : ChangeRecord} (h : analyzeAt cfg o n a = some rec)
    (hct : suppressed_by_settings cfg2 rec.change_type = false) :
    analyzeAt cfg2 o n a = some rec := by
  unfold analyzeAt at h ⊢
  by_cases h1 : sheetGet o a = sheetGet n a
  · simp [h1] at h
  · simp only [if_neg h1] at h ⊢
    by_cases h2 : suppressed_by_settings cfg
        (classify_change_type (sheetGet o a) (sheetGet n a)) = true
    · simp [h2] at h
    · simp only [Bool.not_eq_true] at h2
      simp only [h2, Bool.false_eq_true, if_false] at h
      rw [Option.some_inj] at h
      have hclass : classify_change_type (sheetGet o a) (sheetGet n a) =
          rec.change_type := by rw [← h]
      rw [hclass] at h ⊢
      simp only [hct, Bool.false_eq_true, if_false]
      rw [Option.some_inj]
      exact h

end Watchdog

namespace Watchdog

theorem analyzeAt_not_suppressed {cfg : Settings} {o n : Sheet} {a : String}
    {rec : ChangeRecord} (h : analyzeAt cfg o n a = some rec) :
    suppressed_by_settings cfg rec.change_type = false := by
  unfold analyzeAt at h
  by_cases h1 : sheetGet o a = sheetGet n a
  · simp [h1] at h
  · simp only [if_neg h1] at h
    by_cases h2 : suppressed_by_settings cfg
        (classify_change_type (sheetGet o a) (sheetGet n a)) = true
    · simp [h2] at h
    · simp only [Bool.not_eq_true] at h2
      simp only [h2, Bool.false_eq_true, if_false] at h
      rw [Option.some_inj] at h
      have hclass : classify_change_type (sheetGet o a) (sheetGet n a) =
          rec.change_type := by rw [← h]
      rwa [hclass] at h2

/-- C1 (counterexample): the claim fails as stated.  Take a baseline cell
and a current cell at address `A1` with the same formula `=B1` and the
same value `10`, where only the baseline record carries the optional
`cached_value` key (written by the phase-2 pass of
`dump_excel_cells_with_timeout` when `ENABLE_FORMULA_VALUE_CHECK` was on
when the baseline was taken).  The two dicts compare unequal, so
`analyze_meaningful_changes` does produce a change record for `A1` (with
category `NO_CHANGE`, which no settings filter removes), and `A1` does
appear in the on-screen diff selection, although formula and plain value
both match. -/
theorem C1_counterexample :
    (Cell.mk (some "=B1") (some (.int 10)) (some (some (.int 10)))).formula =
        (Cell.mk (some "=B1") (some (.int 10)) none).formula ∧
      (Cell.mk (some "=B1") (some (.int 10)) (some (some (.int 10)))).value =
        (Cell.mk (some "=B1") (some (.int 10)) none).value ∧
      analyze_meaningful_changes defaultSettings
          [("A1", Cell.mk (some "=B1") (some (.int 10)) (some (some (.int 10))))]
          [("A1", Cell.mk (some "=B1") (some (.int 10)) none)] =
        [ChangeRecord.mk "A1" (some (.int 10)) (some (.int 10))
          (some "=B1") (some "=B1") .NO_CHANGE] ∧
      "A1" ∈ display_addresses
          [("A1", Cell.mk (some "=B1") (some (.int 10)) (some (some (.int 10))))]
          [("A1", Cell.mk (some "=B1") (some (.int 10)) none)] := by
  decide

/-- C1 (amended): if the baseline record and the current record at an
address are equal as whole records — equal formula, equal plain value,
and agreeing `cached_value` field — then `analyze_meaningful_changes`
produces no change record for that address and the address never appears
in the on-screen diff selection, whatever the other cells of the sheet
contain. -/
theorem C1_equal_records_never_reported (cfg : Settings)
    (old_ws new_ws : Sheet) (addr : String) (c : Cell)
    (hOld : sheetGet old_ws addr = some c)
    (hNew : sheetGet new_ws addr = some c) :
    (∀ rec ∈ analyze_meaningful_changes cfg old_ws new_ws,
        rec.address ≠ addr) ∧
      addr ∉ display_addresses old_ws new_ws := by
  constructor
  · intro rec hrec hEq
    obtain ⟨a, ha, hsome⟩ := List.mem_filterMap.mp hrec
    have haddr : rec.address = a := analyzeAt_address hsome
    rw [haddr] at hEq
    subst hEq
    rw [analyzeAt_none_of_eq (by rw [hOld, hNew])] at hsome
    exact absurd hsome (by simp)
  · intro hmem
    exact (mem_display_addresses_iff _ _ _).mp hmem (by rw [hOld, hNew])

theorem C1_equal_records_never_reported_witness :
    sheetGet [("A1", Cell.mk (some "=B1+B2") (some (.int 10)) none),
        ("A2", Cell.mk none (some (.int 1)) none)] "A1" =
      some (Cell.mk (some "=B1+B2") (some (.int 10)) none) ∧
    sheetGet [("A1", Cell.mk (some "=B1+B2") (some (.int 10)) none),
        ("A2", Cell.mk none (some (.int 2)) none)] "A1" =
      some (Cell.mk (some "=B1+B2") (some (.int 10)) none) ∧
    ((∀ rec ∈ analyze_meaningful_changes defaultSettings
          [("A1", Cell.mk (some "=B1+B2") (some (.int 10)) none),
            ("A2", Cell.mk none (some (.int 1)) none)]
          [("A1", Cell.mk (some "=B1+B2") (some (.int 10)) none),
            ("A2", Cell.mk none (some (.int 2)) none)],
        rec.address ≠ "A1") ∧
      "A1" ∉ display_addresses
          [("A1", Cell.mk (some "=B1+B2") (some (.int 10)) none),
            ("A2", Cell.mk none (some (.int 1)) none)]
          [("A1", Cell.mk (some "=B1+B2") (some (.int 10)) none),
            ("A2", Cell.mk none (some (.int 2)) none)]) :=
  ⟨by decide, by decide,
    C1_equal_records_never_reported defaultSettings _ _ "A1"
      (Cell.mk (some "=B1+B2") (some (.int 10)) none) (by decide) (by decide)⟩

/-- C2: for two cell records both present at an address, a difference in
formula text makes `classify_change_type` return `FORMULA_CHANGE`,
whatever the values on either side are; in the source the categories are
tested in the fixed order Added, Deleted, Formula change, Direct value
change, External-reference-update / Indirect, and the formula test is the
first to apply when both cells are present. -/
theorem C2_formula_difference_wins (a b : Cell)
    (h : a.formula ≠ b.formula) :
    classify_change_type (some a) (some b) = .FORMULA_CHANGE := by
  simp [classify_change_type, h]

theorem C2_formula_difference_wins_witness :
    (Cell.mk (some "=B1+B2") (some (.int 10)) none).formula ≠
        (Cell.mk (some "=B1+B3") (some (.int 10)) none).formula ∧
      classify_change_type (some (Cell.mk (some "=B1+B2") (some (.int 10)) none))
        (some (Cell.mk (some "=B1+B3") (some (.int 10)) none)) = .FORMULA_CHANGE :=
  ⟨by decide, C2_formula_difference_wins _ _ (by decide)⟩

/-- C3: for two cell records both present at an address that carry the
exact same formula string, when `has_external_reference` holds of that
formula (the source's test for a formula referencing an external
workbook) and the plain values differ, `classify_change_type` returns
`EXTERNAL_REF_UPDATE` — not `INDIRECT_CHANGE` and no other category. -/
theorem C3_same_external_formula_value_change (a b : Cell) (f : String)
    (hof : a.formula = some f) (hnf : b.formula = some f)
    (hext : has_external_reference (some f) = true)
    (hv : a.value ≠ b.value) :
    classify_change_type (some a) (some b) = .EXTERNAL_REF_UPDATE := by
  have hne : ¬(f = "") := by
    intro h0
    rw [h0] at hext
    exact absurd hext (by decide)
  have ht : formulaTruthy (some f) = true := by simp [formulaTruthy, hne]
  simp [classify_change_type, hof, hnf, ht, hv, hext]

theorem C3_same_external_formula_value_change_witness :
    (Cell.mk (some (String.mk ['=', 'x', '!', sq, 'y'])) (some (.int 1)) none).formula =
        some (String.mk ['=', 'x', '!', sq, 'y']) ∧
      (Cell.mk (some (String.mk ['=', 'x', '!', sq, 'y'])) (some (.int 2)) none).formula =
        some (String.mk ['=', 'x', '!', sq, 'y']) ∧
      has_external_reference (some (String.mk ['=', 'x', '!', sq, 'y'])) = true ∧
      classify_change_type
        (some (Cell.mk (some (String.mk ['=', 'x', '!', sq, 'y'])) (some (.int 1)) none))
        (some (Cell.mk (some (String.mk ['=', 'x', '!', sq, 'y'])) (some (.int 2)) none)) =
        .EXTERNAL_REF_UPDATE :=
  ⟨by decide, by decide, by decide,
    C3_same_external_formula_value_change
      (Cell.mk (some (String.mk ['=', 'x', '!', sq, 'y'])) (some (.int 1)) none)
      (Cell.mk (some (String.mk ['=', 'x', '!', sq, 'y'])) (some (.int 2)) none)
      (String.mk ['=', 'x', '!', sq, 'y'])
      (by decide) (by decide) (by decide) (by decide)⟩

/-- C4: exchanging the roles of baseline and current sheet turns the
change list of `analyze_meaningful_changes` into the swapped change list:
a record is produced for A-versus-B exactly when its swap (old and new
values and formulas exchanged, `CELL_ADDED` and `CELL_DELETED` traded,
`FORMULA_CHANGE`, `DIRECT_VALUE_CHANGE`, `EXTERNAL_REF_UPDATE` and
`INDIRECT_CHANGE` kept) is produced for B-versus-A, so both directions
report the same set of addresses. -/
theorem C4_swap_baseline_current (cfg : Settings) (A B : Sheet)
    (rec : ChangeRecord) :
    rec ∈ analyze_meaningful_changes cfg A B ↔
      swapRecord rec ∈ analyze_meaningful_changes cfg B A := by
  unfold analyze_meaningful_changes
  rw [List.mem_filterMap, List.mem_filterMap]
  constructor
  · rintro ⟨a, ha, hrec⟩
    refine ⟨a, (mem_allAddresses_symm A B a).mp ha, ?_⟩
    rw [analyzeAt_symm, hrec]
    rfl
  · rintro ⟨a, ha, hrec⟩
    refine ⟨a, (mem_allAddresses_symm B A a).mp ha, ?_⟩
    rw [analyzeAt_symm] at hrec
    cases hx : analyzeAt cfg A B a with
    | none => rw [hx] at hrec; exact absurd hrec (by simp)
    | some r =>
      rw [hx] at hrec
      simp only [Option.map_some'] at hrec
      rw [Option.some_inj] at hrec
      have h1 : r = rec := by
        have h2 := congrArg swapRecord hrec
        rwa [swapRecord_swapRecord, swapRecord_swapRecord] at h2
      rw [h1]

/-- C10 (counterexample): the claim fails as stated.
src/config/settings.py provides switches for only four of the six
categories (`TRACK_FORMULA_CHANGES`, `TRACK_DIRECT_VALUE_CHANGES`,
`TRACK_EXTERNAL_REFERENCES`, `IGNORE_INDIRECT_CHANGES`); `CELL_ADDED` and
`CELL_DELETED` have none.  With every available switch in its most
restrictive position, an added cell still yields a change record, which
`compare_excel_changes` then writes to the CSV log — so it is not true
that each of the six categories can be turned off. -/
theorem C10_counterexample :
    analyze_meaningful_changes
        { TRACK_EXTERNAL_REFERENCES := false, TRACK_DIRECT_VALUE_CHANGES := false,
          TRACK_FORMULA_CHANGES := false, IGNORE_INDIRECT_CHANGES := true,
          QUICK_SKIP_BY_STAT := none, MTIME_TOLERANCE_SEC := none,
          AUTO_UPDATE_BASELINE_AFTER_COMPARE := true, USE_LOCAL_CACHE := true,
          STRICT_NO_ORIGINAL_READ := true, COPY_RETRY_COUNT := 8,
          CACHE_FOLDER := "" }
        [] [("A1", Cell.mk none (some (.int 1)) none)] =
      [ChangeRecord.mk "A1" none (some (.int 1)) none none .CELL_ADDED] := by
  decide

/-- C10 (amended): the four categories `FORMULA_CHANGE`,
`DIRECT_VALUE_CHANGE`, `EXTERNAL_REF_UPDATE` and `INDIRECT_CHANGE` each
have an independent configuration switch, and a record of such a category
can only survive into the logged change list when its switch permits it;
`CELL_ADDED` and `CELL_DELETED` records are produced independently of the
configuration; and the on-screen diff selection shows exactly the
addresses at which the two cell mappings disagree, regardless of any
category settings. -/
theorem C10_switch_filtering_and_display (cfg cfg2 : Settings)
    (o n : Sheet) (rec : ChangeRecord) (addr : String) :
    (rec ∈ analyze_meaningful_changes cfg o n →
        (rec.change_type = .FORMULA_CHANGE → cfg.TRACK_FORMULA_CHANGES = true) ∧
        (rec.change_type = .DIRECT_VALUE_CHANGE → cfg.TRACK_DIRECT_VALUE_CHANGES = true) ∧
        (rec.change_type = .EXTERNAL_REF_UPDATE → cfg.TRACK_EXTERNAL_REFERENCES = true) ∧
        (rec.change_type = .INDIRECT_CHANGE → cfg.IGNORE_INDIRECT_CHANGES = false)) ∧
      ((rec.change_type = .CELL_ADDED ∨ rec.change_type = .CELL_DELETED) →
        (rec ∈ analyze_meaningful_changes cfg o n ↔
          rec ∈ analyze_meaningful_changes cfg2 o n)) ∧
      (addr ∈ display_addresses o n ↔ sheetGet o addr ≠ sheetGet n addr) := by
  refine ⟨?_, ?_, mem_display_addresses_iff o n addr⟩
  · intro hmem
    obtain ⟨a, ha, hsome⟩ := List.mem_filterMap.mp hmem
    have hsupp := analyzeAt_not_suppressed hsome
    refine ⟨?_, ?_, ?_, ?_⟩ <;> intro hty <;> rw [hty] at hsupp <;>
      simpa [suppressed_by_settings] using hsupp
  · intro hty
    have hsup2 : ∀ cfg3 : Settings,
        suppressed_by_settings cfg3 rec.change_type = false := by
      intro cfg3
      rcases hty with h | h <;> rw [h] <;> rfl
    constructor <;> intro hmem <;>
      · obtain ⟨a, ha, hsome⟩ := List.mem_filterMap.mp hmem
        exact List.mem_filterMap.mpr ⟨a, ha, analyzeAt_cfg_indep hsome (hsup2 _)⟩

theorem C10_switch_filtering_and_display_witness :
    (ChangeRecord.mk "A1" (some (.int 1)) (some (.int 2))
        (some "=B1") (some "=B2") .FORMULA_CHANGE) ∈
      analyze_meaningful_changes defaultSettings
        [("A1", Cell.mk (some "=B1") (some (.int 1)) none)]
        [("A1", Cell.mk (some "=B2") (some (.int 2)) none)] ∧
    defaultSettings.TRACK_FORMULA_CHANGES = true :=
  ⟨by decide,
    ((C10_switch_filtering_and_display defaultSettings defaultSettings
        [("A1", Cell.mk (some "=B1") (some (.int 1)) none)]
        [("A1", Cell.mk (some "=B2") (some (.int 2)) none)]
        (ChangeRecord.mk "A1" (some (.int 1)) (some (.int 2))
          (some "=B1") (some "=B2") .FORMULA_CHANGE) "A1").1
      (by decide)).1 rfl⟩

end Watchdog

namespace Watchdog

/-- One cell as yielded by `ws.iter_rows(values_only=False)` in
`dump_excel_cells_with_timeout` (src/core/excel_parser.py lines 293-307),
reduced to what the dump loop reads from it: its coordinate, the final
formula string `fstr` (the result of the `cell.formula` /
`get_cell_formula` chain followed by the `pretty_formula` step, `none`
when the cell has no formula), and the serialized value `vstr`. -/
structure RawCell where
  coord : String
  fstr : Option String
  vstr : Option Val
deriving DecidableEq, Repr

/-- One openpyxl worksheet as seen by the dump loop: its title, the
`max_row` and `max_column` bounds (both at least 1 even for an empty
sheet), and the cells that `iter_rows` yields over the used range. -/
structure Worksheet where
  title : String
  maxRow : Nat
  maxCol : Nat
  cells : List RawCell
deriving DecidableEq, Repr

/-- The `ws_data` dict built for one worksheet by
`dump_excel_cells_with_timeout` (src/core/excel_parser.py lines 288-308):
the whole cell loop is guarded by `if ws.max_row > 1 or ws.max_column >
1`, and a cell enters the dict exactly when `fstr is not None or vstr is
not None`. -/
def sheet_ws_data (ws : Worksheet) : Sheet :=
  if ws.maxRow > 1 ∨ ws.maxCol > 1 then
    ws.cells.filterMap (fun c =>
      if c.fstr.isSome ∨ c.vstr.isSome then
        some (c.coord, Cell.mk c.fstr c.vstr none)
      else none)
  else []

/-- The snapshot built by `dump_excel_cells_with_timeout`
(src/core/excel_parser.py lines 287-316): one entry per worksheet whose
`ws_data` dict is non-empty (`if ws_data: result[ws.title] = ws_data`).
The optional phase-2 pass (lines 319-348) only adds `cached_value` keys
inside already-present sheets and never adds or removes a sheet entry, so
it is omitted here where only sheet presence is at stake. -/
def dump_excel_cells (wb : List Worksheet) : List (String × Sheet) :=
  wb.filterMap (fun ws =>
    let d := sheet_ws_data ws
    if d = [] then none else some (ws.title, d))

/-- A worksheet has at least one cell with data: a non-`None` formula or
a non-`None` serialized value. -/
def has_data_cell (ws : Worksheet) : Bool :=
  ws.cells.any (fun c => c.fstr.isSome || c.vstr.isSome)

/-- C9 (counterexample): the claim fails as stated.  A workbook whose
only sheet has its single data cell at `A1` (so `max_row = 1` and
`max_column = 1`) is skipped by the `ws.max_row > 1 or ws.max_column > 1`
guard of the dump loop, so the returned snapshot has no entry for the
sheet even though the sheet has a data cell. -/
theorem C9_counterexample :
    ¬ (("Sheet1" ∈ (dump_excel_cells
          [Worksheet.mk "Sheet1" 1 1 [RawCell.mk "A1" none (some (.int 5))]]).map Prod.fst) ↔
        ∃ ws ∈ [Worksheet.mk "Sheet1" 1 1 [RawCell.mk "A1" none (some (.int 5))]],
          ws.title = "Sheet1" ∧ has_data_cell ws = true) := by
  decide

theorem sheet_ws_data_ne_nil_iff (ws : Worksheet) :
    sheet_ws_data ws ≠ [] ↔
      (ws.maxRow > 1 ∨ ws.maxCol > 1) ∧ has_data_cell ws = true := by
  unfold sheet_ws_data
  by_cases hg : ws.maxRow > 1 ∨ ws.maxCol > 1
  · simp only [hg, if_pos, true_and]
    rw [Ne, List.filterMap_eq_nil_iff]
    unfold has_data_cell
    rw [List.any_eq_true]
    constructor
    · intro h
      by_contra hno
      push_neg at hno
      apply h
      intro c hc
      have : ¬(c.fstr.isSome ∨ c.vstr.isSome) := by
        intro hor
        exact absurd (by simpa using hor) (by simpa using hno c hc)
      simp [this]
    · rintro ⟨c, hc, hdata⟩ hall
      have := hall c hc
      rw [if_pos (by simpa using hdata)] at this
      exact absurd this (by simp)
  · simp [hg]

/-- C9 (amended): for every workbook read by
`dump_excel_cells_with_timeout`, the snapshot has an entry for a sheet
title exactly when the workbook has a worksheet of that title whose grid
extends past the single cell `A1` (`max_row > 1` or `max_column > 1`) and
which has at least one cell with data; in particular a sheet with no data
cells is always omitted, and so is a sheet whose only data cell is `A1`
on a 1-by-1 grid. -/
theorem C9_sheet_presence (wb : List Worksheet) (t : String) :
    t ∈ (dump_excel_cells wb).map Prod.fst ↔
      ∃ ws ∈ wb, ws.title = t ∧
        (ws.maxRow > 1 ∨ ws.maxCol > 1) ∧ has_data_cell ws = true := by
  unfold dump_excel_cells
  rw [List.mem_map]
  constructor
  · rintro ⟨e, he, het⟩
    obtain ⟨ws, hws, hsome⟩ := List.mem_filterMap.mp he
    by_cases hd : sheet_ws_data ws = []
    · simp [hd] at hsome
    · simp only [if_neg hd] at hsome
      rw [Option.some_inj] at hsome
      refine ⟨ws, hws, ?_, (sheet_ws_data_ne_nil_iff ws).mp hd⟩
      rw [← het, ← hsome]
  · rintro ⟨ws, hws, ht, hrest⟩
    have hd : sheet_ws_data ws ≠ [] := (sheet_ws_data_ne_nil_iff ws).mpr hrest
    refine ⟨(ws.title, sheet_ws_data ws), List.mem_filterMap.mpr ⟨ws, hws, ?_⟩, ht⟩
    simp [hd]

end Watchdog

namespace Watchdog

/-- A snapshot of the mutable state of `ActivePollingHandler`
(src/core/watcher.py lines 10-104), with bookkeeping for every
`threading.Timer` the handler ever constructs.  `tasks` models the
`polling_tasks` dict, mapping a file path to the id of the timer stored
under its `'timer'` key; `created` lists every timer ever constructed,
tagged with the path whose callback it runs; `cancelled` and `fired`
record the ids that have been `.cancel()`ed and the ids whose callbacks
have already run; `nextId` supplies fresh ids. -/
structure PollState where
  tasks : List (String × Nat)
  created : List (String × Nat)
  cancelled : List Nat
  fired : List Nat
  nextId : Nat
deriving DecidableEq, Repr

/-- Python dict lookup `d.get(k)` on the task table. -/
def tasksLookup (l : List (String × Nat)) (k : String) : Option Nat :=
  (l.find? (fun q => q.1 = k)).map Prod.snd

/-- Python dict assignment `d[k] = v`: overwrite the (unique) existing
entry in place, or append a new one. -/
def tasksSet : List (String × Nat) → String → Nat → List (String × Nat)
  | [], k, v => [(k, v)]
  | q :: t, k, v => if q.1 = k then (k, v) :: t else q :: tasksSet t k v

/-- A timer is pending when it has been created but neither cancelled
nor fired yet: exactly the `threading.Timer`s that are still scheduled to
run. -/
def timerPending (s : PollState) (p : String) (id : Nat) : Prop :=
  (p, id) ∈ s.created ∧ id ∉ s.cancelled ∧ id ∉ s.fired

/-- `_start_adaptive_polling` (src/core/watcher.py lines 40-54): under
the lock, if the path already has an entry its timer is cancelled first,
then a fresh timer is created, stored in the entry, and started. -/
def start_adaptive_polling (s : PollState) (p : String) : PollState :=
  let cancelled2 := match tasksLookup s.tasks p with
    | some t => t :: s.cancelled
    | none => s.cancelled
  { tasks := tasksSet s.tasks p s.nextId
    created := (p, s.nextId) :: s.created
    cancelled := cancelled2
    fired := s.fired
    nextId := s.nextId + 1 }

/-- `_poll_for_stability` (src/core/watcher.py lines 56-94) as one atomic
step, taken when the pending timer `id` for path `p` fires (so the timer
is spent).  If the stop event is set the callback returns at once;
otherwise, in the locked section, a path no longer in `polling_tasks`
ends the task; a comparison that reported changes creates a fresh timer
and stores it in the existing entry; a stable file pops the entry. -/
def poll_for_stability (s : PollState) (p : String) (id : Nat)
    (hasChanges stopSet : Bool) : PollState :=
  let s1 : PollState := { s with fired := id :: s.fired }
  if stopSet then s1
  else if tasksLookup s1.tasks p = none then s1
  else if hasChanges then
    { s1 with
      tasks := tasksSet s1.tasks p s1.nextId
      created := (p, s1.nextId) :: s1.created
      nextId := s1.nextId + 1 }
  else { s1 with tasks := s1.tasks.filter (fun q => ¬ q.1 = p) }

/-- `ActivePollingHandler.stop` (src/core/watcher.py lines 96-104): set
the stop event, cancel the timer of every entry, and clear the dict. -/
def poll_stop (s : PollState) : PollState :=
  { s with
    tasks := []
    cancelled := s.tasks.map Prod.snd ++ s.cancelled }

/-- The three operations that mutate the polling task table. -/
inductive PollStep where
  | start (p : String)
  | fire (p : String) (id : Nat) (hasChanges stopSet : Bool)
  | stop
deriving DecidableEq, Repr

def applyStep (s : PollState) : PollStep → PollState
  | .start p => start_adaptive_polling s p
  | .fire p id hc st => poll_for_stability s p id hc st
  | .stop => poll_stop s

/-- Soundness side condition of a `fire` step: the callback that reaches
the handler belongs to the timer currently registered for its path, or
the entry has been removed wholesale before the callback ran (after
`stop` or a pop), in which case the locked section exits at the
`file_path not in polling_tasks` check.  In the source this holds because
only `_start_adaptive_polling` creates entries and the event thread never
starts a task for a path that already has one. -/
def validStep (s : PollState) : PollStep → Prop
  | .fire p id _ _ =>
      tasksLookup s.tasks p = some id ∨ tasksLookup s.tasks p = none
  | _ => True

/-- The handler invariant: every pending timer is the one registered in
the task table for its path, and all created ids are below the fresh
counter. -/
def PollInv (s : PollState) : Prop :=
  (∀ p id, timerPending s p id → tasksLookup s.tasks p = some id) ∧
  (∀ q ∈ s.created, q.2 < s.nextId)

theorem tasksLookup_set_self (l : List (String × Nat)) (k : String) (v : Nat) :
    tasksLookup (tasksSet l k v) k = some v := by
  induction l with
  | nil => simp [tasksSet, tasksLookup]
  | cons q t ih =>
    by_cases h : q.1 = k
    · simp [tasksSet, h, tasksLookup]
    · simp only [tasksSet, if_neg h, tasksLookup]
      rw [List.find?_cons_of_neg _ (by simpa using h)]
      exact ih

theorem tasksLookup_set_other (l : List (String × Nat)) (k k2 : String)
    (v : Nat) (h : k2 ≠ k) :
    tasksLookup (tasksSet l k v) k2 = tasksLookup l k2 := by
  induction l with
  | nil =>
    simp only [tasksSet, tasksLookup]
    rw [List.find?_cons_of_neg _ (by simp; exact fun h2 => h h2.symm)]
  | cons q t ih =>
    by_cases hq : q.1 = k
    · simp only [tasksSet, if_pos hq, tasksLookup]
      rw [List.find?_cons_of_neg _ (by simp; exact fun h2 => h h2.symm),
        List.find?_cons_of_neg _ (by simp [hq]; exact fun h2 => h h2.symm)]
    · simp only [tasksSet, if_neg hq, tasksLookup]
      by_cases hq2 : q.1 = k2
      · rw [List.find?_cons_of_pos _ (by simpa using hq2),
          List.find?_cons_of_pos _ (by simpa using hq2)]
      · rw [List.find?_cons_of_neg _ (by simpa using hq2),
          List.find?_cons_of_neg _ (by simpa using hq2)]
        exact ih

theorem tasksLookup_filter_self (l : List (String × Nat)) (p : String) :
    tasksLookup (l.filter (fun q => ¬ q.1 = p)) p = none := by
  induction l with
  | nil => simp [tasksLookup]
  | cons q t ih =>
    by_cases h : q.1 = p
    · simpa [List.filter_cons, h] using ih
    · simp only [List.filter_cons]
      rw [if_pos (by simpa using h)]
      simp only [tasksLookup]
      rw [List.find?_cons_of_neg _ (by simpa using h)]
      exact ih

theorem tasksLookup_filter_other (l : List (String × Nat)) (p k : String)
    (h : k ≠ p) :
    tasksLookup (l.filter (fun q => ¬ q.1 = p)) k = tasksLookup l k := by
  induction l with
  | nil => simp
  | cons q t ih =>
    by_cases hq : q.1 = p
    · have hqk : ¬ q.1 = k := by rw [hq]; exact fun h2 => h h2.symm
      simp only [List.filter_cons]
      rw [if_neg (by simpa using hq)]
      simp only [tasksLookup]
      rw [List.find?_cons_of_neg _ (by simpa using hqk)]
      exact ih
    · simp only [List.filter_cons]
      rw [if_pos (by simpa using hq)]
      by_cases hq2 : q.1 = k
      · simp only [tasksLookup]
        rw [List.find?_cons_of_pos _ (by simpa using hq2),
          List.find?_cons_of_pos _ (by simpa using hq2)]
      · simp only [tasksLookup]
        rw [List.find?_cons_of_neg _ (by simpa using hq2),
          List.find?_cons_of_neg _ (by simpa using hq2)]
        exact ih

theorem mem_values_of_tasksLookup {l : List (String × Nat)} {k : String}
    {v : Nat} (h : tasksLookup l k = some v) : v ∈ l.map Prod.snd := by
  unfold tasksLookup at h
  cases hf : l.find? (fun q => q.1 = k) with
  | none => rw [hf] at h; exact absurd h (by simp)
  | some q =>
    rw [hf] at h
    simp only [Option.map_some'] at h
    rw [Option.some_inj] at h
    rw [← h]
    exact List.mem_map_of_mem Prod.snd (List.mem_of_find?_eq_some hf)

end Watchdog

namespace Watchdog

theorem start_cancels_existing (s : PollState) (p : String) (t : Nat)
    (ht : tasksLookup s.tasks p = some t) :
    t ∈ (start_adaptive_polling s p).cancelled := by
  show t ∈ (match tasksLookup s.tasks p with
    | some u => u :: s.cancelled
    | none => s.cancelled)
  rw [ht]
  exact List.mem_cons_self t s.cancelled

theorem start_cancelled_superset (s : PollState) (p : String) :
    ∀ x ∈ s.cancelled, x ∈ (start_adaptive_polling s p).cancelled := by
  intro x hx
  show x ∈ (match tasksLookup s.tasks p with
    | some u => u :: s.cancelled
    | none => s.cancelled)
  cases tasksLookup s.tasks p <;> simp [hx]

theorem pollInv_start {s : PollState} (h : PollInv s) (p : String) :
    PollInv (start_adaptive_polling s p) := by
  obtain ⟨hreg, hfresh⟩ := h
  constructor
  · intro p2 id hpen
    obtain ⟨hc, hnc, hnf⟩ := hpen
    have htasks : (start_adaptive_polling s p).tasks =
        tasksSet s.tasks p s.nextId := rfl
    have hcreated : (start_adaptive_polling s p).created =
        (p, s.nextId) :: s.created := rfl
    have hfired : (start_adaptive_polling s p).fired = s.fired := rfl
    rw [hcreated] at hc
    rw [hfired] at hnf
    rw [htasks]
    rcases List.mem_cons.mp hc with hc1 | hc2
    · have hp2 : p2 = p := congrArg Prod.fst hc1
      have hid : id = s.nextId := congrArg Prod.snd hc1
      rw [hp2, hid]
      exact tasksLookup_set_self s.tasks p s.nextId
    · have hold : timerPending s p2 id :=
        ⟨hc2, fun hm => hnc (start_cancelled_superset s p id hm), hnf⟩
      by_cases hp : p2 = p
      · subst hp
        exact absurd (start_cancels_existing s p2 id (hreg p2 id hold)) hnc
      · rw [tasksLookup_set_other s.tasks p p2 s.nextId hp]
        exact hreg p2 id hold
  · intro q hq
    have hcreated : (start_adaptive_polling s p).created =
        (p, s.nextId) :: s.created := rfl
    have hnext : (start_adaptive_polling s p).nextId = s.nextId + 1 := rfl
    rw [hcreated] at hq
    rw [hnext]
    rcases List.mem_cons.mp hq with hq1 | hq2
    · rw [hq1]
      exact Nat.lt_succ_self s.nextId
    · exact Nat.lt_succ_of_lt (hfresh q hq2)

theorem pollInv_fired_only {s : PollState} (h : PollInv s) (id : Nat) :
    PollInv { s with fired := id :: s.fired } := by
  obtain ⟨hreg, hfresh⟩ := h
  constructor
  · intro p2 y hpen
    obtain ⟨hc, hnc, hnf⟩ := hpen
    exact hreg p2 y ⟨hc, hnc, fun hm => hnf (List.mem_cons_of_mem id hm)⟩
  · exact hfresh

theorem pollInv_fire {s : PollState} (h : PollInv s) (p : String) (id : Nat)
    (hc st : Bool)
    (hval : tasksLookup s.tasks p = some id ∨ tasksLookup s.tasks p = none) :
    PollInv (poll_for_stability s p id hc st) := by
  unfold poll_for_stability
  by_cases hst : st = true
  · simp only [hst, if_pos]
    exact pollInv_fired_only h id
  · simp only [Bool.not_eq_true] at hst
    simp only [hst, Bool.false_eq_true, if_false]
    by_cases hnone :
        tasksLookup ({ s with fired := id :: s.fired } : PollState).tasks p = none
    · simp only [if_pos hnone]
      exact pollInv_fired_only h id
    · simp only [if_neg hnone]
      have hsome : tasksLookup s.tasks p = some id := by
        rcases hval with hv | hv
        · exact hv
        · exact absurd hv hnone
      obtain ⟨hreg, hfresh⟩ := h
      by_cases hhc : hc = true
      · simp only [hhc, if_pos]
        constructor
        · intro p2 y hpen
          obtain ⟨hcr, hncan, hnf⟩ := hpen
          simp only [List.mem_cons] at hcr hnf
          push_neg at hnf
          obtain ⟨hyid, hnf2⟩ := hnf
          rcases hcr with hc1 | hc2
          · have hp2 : p2 = p := congrArg Prod.fst hc1
            have hy : y = s.nextId := congrArg Prod.snd hc1
            rw [hp2, hy]
            exact tasksLookup_set_self s.tasks p s.nextId
          · have hold : timerPending s p2 y := ⟨hc2, hncan, hnf2⟩
            have hlook := hreg p2 y hold
            by_cases hp : p2 = p
            · subst hp
              rw [hsome] at hlook
              exact absurd (Option.some_inj.mp hlook).symm hyid
            · rw [tasksLookup_set_other s.tasks p p2 s.nextId hp]
              exact hlook
        · intro q hq
          simp only [List.mem_cons] at hq
          rcases hq with hq1 | hq2
          · rw [hq1]
            exact Nat.lt_succ_self s.nextId
          · exact Nat.lt_succ_of_lt (hfresh q hq2)
      · simp only [Bool.not_eq_true] at hhc
        simp only [hhc, Bool.false_eq_true, if_false]
        constructor
        · intro p2 y hpen
          obtain ⟨hcr, hncan, hnf⟩ := hpen
          simp only [List.mem_cons] at hnf
          push_neg at hnf
          obtain ⟨hyid, hnf2⟩ := hnf
          have hold : timerPending s p2 y := ⟨hcr, hncan, hnf2⟩
          have hlook := hreg p2 y hold
          by_cases hp : p2 = p
          · subst hp
            rw [hsome] at hlook
            exact absurd (Option.some_inj.mp hlook).symm hyid
          · rw [tasksLookup_filter_other s.tasks p p2 hp]
            exact hlook
        · exact hfresh

theorem no_pending_after_stop {s : PollState} (h : PollInv s) :
    ∀ p id, ¬ timerPending (poll_stop s) p id := by
  intro p id hpen
  obtain ⟨hc, hnc, hnf⟩ := hpen
  have hold : timerPending s p id :=
    ⟨hc, fun hm => hnc (List.mem_append_right _ hm), hnf⟩
  exact hnc (List.mem_append_left _ (mem_values_of_tasksLookup (h.1 p id hold)))

theorem pollInv_stop {s : PollState} (h : PollInv s) : PollInv (poll_stop s) := by
  constructor
  · intro p id hpen
    exact absurd hpen (no_pending_after_stop h p id)
  · exact h.2

end Watchdog

namespace Watchdog

/-- C8: the polling handler keeps at most one pending timer per file
path.  From any state satisfying the handler invariant, every operation
(`_start_adaptive_polling`, a `_poll_for_stability` callback firing, or
`stop`) preserves the invariant and leaves at most one pending timer per
path; starting a new polling task for a path that already has an entry
cancels that entry's timer; and `stop` cancels every pending timer of
every file and empties the task collection. -/
theorem C8_at_most_one_pending_timer (s : PollState) (step : PollStep)
    (hInv : PollInv s) (hval : validStep s step) :
    PollInv (applyStep s step) ∧
      (∀ p id1 id2, timerPending (applyStep s step) p id1 →
        timerPending (applyStep s step) p id2 → id1 = id2) ∧
      (∀ p t, tasksLookup s.tasks p = some t →
        t ∈ (start_adaptive_polling s p).cancelled) ∧
      (poll_stop s).tasks = [] ∧
      (∀ p id, ¬ timerPending (poll_stop s) p id) := by
  have hInv2 : PollInv (applyStep s step) := by
    cases step with
    | start p => exact pollInv_start hInv p
    | fire p id hc st => exact pollInv_fire hInv p id hc st hval
    | stop => exact pollInv_stop hInv
  refine ⟨hInv2, ?_, ?_, rfl, no_pending_after_stop hInv⟩
  · intro p id1 id2 h1 h2
    have e1 := hInv2.1 p id1 h1
    have e2 := hInv2.1 p id2 h2
    rw [e1] at e2
    exact Option.some_inj.mp e2
  · intro p t ht
    exact start_cancels_existing s p t ht

theorem C8_at_most_one_pending_timer_witness :
    PollInv (applyStep (PollState.mk [] [] [] [] 0) (.start "f.xlsx")) ∧
      (∀ p id1 id2,
        timerPending (applyStep (PollState.mk [] [] [] [] 0) (.start "f.xlsx")) p id1 →
        timerPending (applyStep (PollState.mk [] [] [] [] 0) (.start "f.xlsx")) p id2 →
        id1 = id2) ∧
      (∀ p t, tasksLookup (PollState.mk [] [] [] [] 0).tasks p = some t →
        t ∈ (start_adaptive_polling (PollState.mk [] [] [] [] 0) p).cancelled) ∧
      (poll_stop (PollState.mk [] [] [] [] 0)).tasks = [] ∧
      (∀ p id, ¬ timerPending (poll_stop (PollState.mk [] [] [] [] 0)) p id) :=
  C8_at_most_one_pending_timer (PollState.mk [] [] [] [] 0) (.start "f.xlsx")
    ⟨fun _ _ hpen => absurd hpen.1 (List.not_mem_nil _),
      fun _ hq => absurd hq (List.not_mem_nil _)⟩
    trivial

end Watchdog

namespace Watchdog

/-- Outcome of one iteration of the retry loop of `copy_to_cache`
(src/utils/cache.py lines 211-260): the stability precheck can find the
source still changing (`continue` after a backoff), the copy itself can
raise `PermissionError`/`OSError` (retry, or break on the last attempt),
or the copy can succeed. -/
inductive AttemptOutcome where
  | unstable
  | copyFail
  | ok
deriving DecidableEq, Repr

/-- Environment of one `copy_to_cache` call (src/utils/cache.py lines
166-296): the configuration plus one oracle per filesystem interaction.
Exceptions raised inside the body (`FileNotFoundError` at line 183,
`PermissionError` at line 185, `OSError` from `os.makedirs`) are caught
by the handlers at lines 282-296 and are modelled by the corresponding
branch outcome.  The copy engine is taken from the known set (`python`
chunked or whole-file, `robocopy`, `powershell`), whose failures all
surface as the caught `OSError`. -/
structure CacheEnv where
  settings : Settings
  network_path : String
  /-- the `_safe_cache_basename` of the source path: its md5-prefixed,
  sanitized, length-capped file name -/
  cacheBase : String
  /-- `os.makedirs(CACHE_FOLDER, exist_ok=True)` raises `OSError` -/
  mkdirFails : Bool
  /-- `os.path.exists(network_path)` -/
  srcExists : Bool
  /-- `os.access(network_path, os.R_OK)` -/
  srcReadable : Bool
  /-- the cache file already exists and its mtime is at least the
  source's (lines 190-195; an `OSError` while reading the mtimes is
  caught there and treated as not fresh) -/
  cacheFresh : Bool
  /-- outcome of retry-loop iteration `i` (1-based) -/
  attempt : Nat → AttemptOutcome

/-- `_is_in_cache` (src/utils/cache.py lines 16-22):
`os.path.commonpath([p, cache_root]) == cache_root`, modelled as the
cache root being a character prefix of the path (the `ValueError` raised
by `commonpath` for paths on different drives is caught there and yields
`False`, covered by the prefix test failing). -/
def is_in_cache (cacheFolder p : String) : Bool :=
  cacheFolder.data.isPrefixOf p.data

/-- The cache destination `os.path.join(CACHE_FOLDER,
_safe_cache_basename(network_path))` of src/utils/cache.py line 187. -/
def cache_file (env : CacheEnv) : String :=
  env.settings.CACHE_FOLDER ++ "\\" ++ env.cacheBase

/-- `retry = max(1, int(getattr(settings, 'COPY_RETRY_COUNT', 3)))`
(src/utils/cache.py line 206). -/
def retryCount (env : CacheEnv) : Nat :=
  max 1 env.settings.COPY_RETRY_COUNT.toNat

/-- The `for attempt in range(1, retry + 1)` loop of `copy_to_cache`
(src/utils/cache.py lines 211-260), started at attempt `i` with `fuel`
iterations left: a failed stability precheck consumes the attempt and
continues; a raised `PermissionError`/`OSError` retries (or breaks on
the last attempt, which like running out of iterations falls through to
the exhausted-retries handling); a successful copy returns the cache
file path. -/
def copy_retry_loop (env : CacheEnv) : Nat → Nat → Option String
  | _, 0 => none
  | i, fuel + 1 =>
    match env.attempt i with
    | .ok => some (cache_file env)
    | .unstable => copy_retry_loop env (i + 1) fuel
    | .copyFail => copy_retry_loop env (i + 1) fuel

/-- src/utils/cache.py lines 166-296, `copy_to_cache`.  Returns `some
path` for a normal return and `none` for the source's `return None`
outcomes.  Branches in source order: local cache disabled (strict: skip;
else use the original), `os.makedirs` failure (caught by the outer
`OSError` handler), source already under the cache root (returned
as-is), source missing or unreadable (raised, then caught by the outer
handlers), fresh cached copy reused, then the retry loop with the
exhausted-retries fallback of lines 262-280. -/
def copy_to_cache (env : CacheEnv) : Option String :=
  if env.settings.USE_LOCAL_CACHE = false then
    (if env.settings.STRICT_NO_ORIGINAL_READ then none else some env.network_path)
  else if env.mkdirFails then
    (if env.settings.STRICT_NO_ORIGINAL_READ then none else some env.network_path)
  else if is_in_cache env.settings.CACHE_FOLDER env.network_path then
    some env.network_path
  else if env.srcExists = false then
    (if env.settings.STRICT_NO_ORIGINAL_READ then none else some env.network_path)
  else if env.srcReadable = false then
    (if env.settings.STRICT_NO_ORIGINAL_READ then none else some env.network_path)
  else if env.cacheFresh then
    some (cache_file env)
  else
    match copy_retry_loop env 1 (retryCount env) with
    | some f => some f
    | none =>
      if env.settings.STRICT_NO_ORIGINAL_READ then none else some env.network_path

/-- Every iteration the retry loop will run fails (stability precheck
failure or a copy error): no attempt in `1..retry` succeeds. -/
def copy_attempts_all_fail (env : CacheEnv) : Bool :=
  (List.range (retryCount env)).all (fun k => env.attempt (k + 1) ≠ .ok)

/-- The call gets past the preliminary checks into the retry loop (local
cache on, `makedirs` fine, source outside the cache root, present,
readable, no fresh cached copy) and every attempt fails. -/
def reaches_retry_loop_and_fails (env : CacheEnv) : Prop :=
  env.settings.USE_LOCAL_CACHE = true ∧
  env.mkdirFails = false ∧
  is_in_cache env.settings.CACHE_FOLDER env.network_path = false ∧
  env.srcExists = true ∧
  env.srcReadable = true ∧
  env.cacheFresh = false ∧
  copy_attempts_all_fail env = true

theorem isPrefixOf_append_self (l m : List Char) :
    l.isPrefixOf (l ++ m) = true := by
  induction l with
  | nil => simp [List.isPrefixOf]
  | cons a t ih => simp [List.isPrefixOf, ih]

theorem is_in_cache_cache_file (env : CacheEnv) :
    is_in_cache env.settings.CACHE_FOLDER (cache_file env) = true := by
  unfold is_in_cache cache_file
  rw [String.append_assoc, String.data_append]
  exact isPrefixOf_append_self _ _

theorem cache_file_ne_network (env : CacheEnv)
    (h : is_in_cache env.settings.CACHE_FOLDER env.network_path = false) :
    cache_file env ≠ env.network_path := by
  intro he
  rw [← he] at h
  rw [is_in_cache_cache_file env] at h
  exact absurd h (by simp)

theorem copy_retry_loop_some {env : CacheEnv} {i fuel : Nat} {f : String}
    (h : copy_retry_loop env i fuel = some f) : f = cache_file env := by
  induction fuel generalizing i with
  | zero => exact Option.noConfusion h
  | succ fuel ih =>
    unfold copy_retry_loop at h
    cases ha : env.attempt i with
    | ok =>
      rw [ha] at h
      exact (Option.some_inj.mp h).symm
    | unstable =>
      rw [ha] at h
      exact ih h
    | copyFail =>
      rw [ha] at h
      exact ih h

theorem copy_retry_loop_none {env : CacheEnv} (fuel : Nat) (i : Nat)
    (h : ∀ k, i ≤ k → k < i + fuel → env.attempt k ≠ .ok) :
    copy_retry_loop env i fuel = none := by
  induction fuel generalizing i with
  | zero => rfl
  | succ fuel ih =>
    unfold copy_retry_loop
    cases ha : env.attempt i with
    | ok => exact absurd ha (h i (Nat.le_refl i) (by omega))
    | unstable => exact ih (i + 1) (fun k h1 h2 => h k (by omega) (by omega))
    | copyFail => exact ih (i + 1) (fun k h1 h2 => h k (by omega) (by omega))

theorem copy_retry_loop_exhausted {env : CacheEnv}
    (h : copy_attempts_all_fail env = true) :
    copy_retry_loop env 1 (retryCount env) = none := by
  apply copy_retry_loop_none
  intro k h1 h2
  unfold copy_attempts_all_fail at h
  rw [List.all_eq_true] at h
  have := h (k - 1) (List.mem_range.mpr (by omega))
  have hk : k - 1 + 1 = k := by omega
  rw [hk] at this
  simpa using this

end Watchdog

namespace Watchdog

/-- C7: with strict mode (`STRICT_NO_ORIGINAL_READ`) on and a source
path not already inside the cache folder, `copy_to_cache` never returns
the original source path, and when the call reaches the retry loop and
every configured attempt fails it returns `none`; with strict mode off,
the same exhausted-retries failures make it return the original path as
a fallback. -/
theorem C7_strict_mode_never_original (env : CacheEnv) :
    (env.settings.STRICT_NO_ORIGINAL_READ = true →
      is_in_cache env.settings.CACHE_FOLDER env.network_path = false →
      copy_to_cache env ≠ some env.network_path) ∧
    (env.settings.STRICT_NO_ORIGINAL_READ = true →
      reaches_retry_loop_and_fails env →
      copy_to_cache env = none) ∧
    (env.settings.STRICT_NO_ORIGINAL_READ = false →
      reaches_retry_loop_and_fails env →
      copy_to_cache env = some env.network_path) := by
  refine ⟨?_, ?_, ?_⟩
  · intro hstrict hnc
    unfold copy_to_cache
    by_cases h1 : env.settings.USE_LOCAL_CACHE = false
    · simp [h1, hstrict]
    · rw [if_neg h1]
      by_cases h2 : env.mkdirFails
      · simp [h2, hstrict]
      · rw [if_neg h2, if_neg (by simp [hnc])]
        by_cases h4 : env.srcExists = false
        · simp [h4, hstrict]
        · rw [if_neg h4]
          by_cases h5 : env.srcReadable = false
          · simp [h5, hstrict]
          · rw [if_neg h5]
            by_cases h6 : env.cacheFresh
            · simp only [h6, if_pos]
              intro he
              exact cache_file_ne_network env hnc (Option.some_inj.mp he)
            · rw [if_neg h6]
              cases hloop : copy_retry_loop env 1 (retryCount env) with
              | some f =>
                intro he
                have hf : f = env.network_path := Option.some_inj.mp he
                rw [copy_retry_loop_some hloop] at hf
                exact cache_file_ne_network env hnc hf
              | none => simp [hstrict]
  · intro hstrict hr
    obtain ⟨hu, hm, hic, hex, hrd, hfr, hfail⟩ := hr
    unfold copy_to_cache
    rw [if_neg (by simp [hu]), if_neg (by simp [hm]), if_neg (by simp [hic]),
      if_neg (by simp [hex]), if_neg (by simp [hrd]), if_neg (by simp [hfr]),
      copy_retry_loop_exhausted hfail]
    simp [hstrict]
  · intro hstrict hr
    obtain ⟨hu, hm, hic, hex, hrd, hfr, hfail⟩ := hr
    unfold copy_to_cache
    rw [if_neg (by simp [hu]), if_neg (by simp [hm]), if_neg (by simp [hic]),
      if_neg (by simp [hex]), if_neg (by simp [hrd]), if_neg (by simp [hfr]),
      copy_retry_loop_exhausted hfail]
    simp [hstrict]

/-- A concrete environment for the strict-mode claim: the shipped strict
configuration, a source on a network drive outside the cache folder, and
every copy attempt raising an `OSError`. -/
def strictFailEnv : CacheEnv where
  settings := defaultSettings
  network_path := "Z:\\shared\\book.xlsx"
  cacheBase := "0123456789abcdef_book.xlsx"
  mkdirFails := false
  srcExists := true
  srcReadable := true
  cacheFresh := false
  attempt := fun _ => .copyFail

/-- The same failing environment with strict mode switched off. -/
def nonStrictFailEnv : CacheEnv :=
  { strictFailEnv with
    settings := { defaultSettings with STRICT_NO_ORIGINAL_READ := false } }

theorem C7_strict_mode_never_original_witness :
    strictFailEnv.settings.STRICT_NO_ORIGINAL_READ = true ∧
    is_in_cache strictFailEnv.settings.CACHE_FOLDER strictFailEnv.network_path = false ∧
    reaches_retry_loop_and_fails strictFailEnv ∧
    copy_to_cache strictFailEnv ≠ some strictFailEnv.network_path ∧
    copy_to_cache strictFailEnv = none ∧
    nonStrictFailEnv.settings.STRICT_NO_ORIGINAL_READ = false ∧
    copy_to_cache nonStrictFailEnv = some nonStrictFailEnv.network_path :=
  ⟨rfl, by decide, ⟨rfl, rfl, by decide, rfl, rfl, rfl, by decide⟩,
    (C7_strict_mode_never_original strictFailEnv).1 rfl (by decide),
    (C7_strict_mode_never_original strictFailEnv).2.1 rfl
      ⟨rfl, rfl, by decide, rfl, rfl, rfl, by decide⟩,
    rfl,
    (C7_strict_mode_never_original nonStrictFailEnv).2.2 rfl
      ⟨rfl, rfl, by decide, rfl, rfl, rfl, by decide⟩⟩

end Watchdog

namespace Watchdog

/-- The snapshot of a whole workbook: the dict mapping worksheet name to
its sheet dict, as produced by `dump_excel_cells_with_timeout` and as
stored under the `cells` key of a baseline. -/
abbrev WsMap := List (String × Sheet)

/-- Exceptions that the comparison flow can raise internally. -/
inductive PyExc where
  | attributeError
  | osError
  | valueError
  | other
deriving DecidableEq, Repr

/-- The fields of a saved baseline dict that `compare_excel_changes`
reads (src/core/comparison.py lines 167-264): the `cells` snapshot
(`old_baseline.get('cells', {})`), and the optional `source_mtime` /
`source_size` recorded when the baseline was saved.  The remaining keys
(`last_author`, `content_hash`, `timestamp`) only feed the display and
are not modelled.  A loaded baseline dict is non-empty (it always has at
least these keys), hence truthy. -/
structure Baseline where
  cells : WsMap
  source_mtime : Option Rat
  source_size : Option Int
deriving DecidableEq, Repr

/-- Python dict lookup on a workbook snapshot. -/
def cellsGet (m : WsMap) (k : String) : Option Sheet :=
  (m.find? (fun p => p.1 = k)).map Prod.snd

/-- `baseline_cells.get(worksheet_name, {})` — dict lookup with the
empty-dict default (src/core/comparison.py lines 210-211). -/
def wsAt (m : WsMap) (k : String) : Sheet :=
  (cellsGet m k).getD []

/-- Python `==` of two sheet dicts: every address of either side maps to
the same optional record. -/
def sheetEqB (a b : Sheet) : Bool :=
  (a.map Prod.fst ++ b.map Prod.fst).all
    (fun k => sheetGet a k = sheetGet b k)

/-- Python `==` of two workbook snapshots (`baseline_cells ==
current_data`, src/core/comparison.py line 195): same sheet-name set,
and equal sheet dicts at every name. -/
def wsMapEqB (a b : WsMap) : Bool :=
  (a.map Prod.fst ++ b.map Prod.fst).all
    (fun k =>
      match cellsGet a k, cellsGet b k with
      | none, none => true
      | some x, some y => sheetEqB x y
      | _, _ => false)

/-- The sheet names iterated by the comparison loop:
`set(baseline_cells.keys()) | set(current_data.keys())`
(src/core/comparison.py line 209). -/
def sheetNames (a b : WsMap) : List String :=
  (a.map Prod.fst ++ b.map Prod.fst).dedup

/-- `any_sheet_has_changes` after the loop of src/core/comparison.py
lines 209-250: some sheet of the union differs (with the empty-dict
default for a missing side). -/
def any_sheet_changes (oldCells newCells : WsMap) : Bool :=
  (sheetNames oldCells newCells).any
    (fun k => !(sheetEqB (wsAt oldCells k) (wsAt newCells k)))

/-- Truthiness of a snapshot-read result (`if not current_data`,
src/core/comparison.py line 186): `None` (read failure) and the empty
dict are falsy. -/
def dumpTruthy : Option WsMap → Bool
  | none => false
  | some m => !(m.isEmpty)

/-- Environment of one `compare_excel_changes` call (src/core/comparison.py
lines 157-275): the configuration, the two flags, and one oracle per
outside interaction.  The baseline store and the baseline-key derivation
are the external collaborators of spec section 6 and enter only through
the `loadBaseline` oracle.  `dump_excel_cells_with_timeout` catches its
own exceptions and returns `None`, so its two calls are plain options;
`get_excel_last_author` is wrapped at lines 204-207 and never escapes. -/
structure CompareEnv where
  settings : Settings
  silent : Bool
  isPolling : Bool
  /-- `load_baseline(base_key)`: raised, returned nothing, or a dict -/
  loadBaseline : Except PyExc (Option Baseline)
  /-- `os.path.getmtime` / `os.path.getsize` of the quick-skip block
  (lines 172-173); a raise here is swallowed by the inner
  `except Exception: pass` -/
  stat1 : Except PyExc (Rat × Int)
  /-- first `dump_excel_cells_with_timeout` result -/
  dump1 : Option WsMap
  /-- the retry after the one-second sleep -/
  dump2 : Option WsMap
  /-- `get_excel_last_author` result -/
  author : Option String
  /-- an exception escaping the per-sheet display or CSV logging
  (`print_aligned_console_diff` / `log_meaningful_changes_to_csv`,
  whose own handlers cover only some error types) -/
  displayLogExc : Option PyExc
  /-- `os.path.getmtime` / `os.path.getsize` before the automatic
  baseline update (lines 256-257) -/
  stat2 : Except PyExc (Rat × Int)
  /-- `save_baseline` result; a `False` only prints a warning -/
  saveOk : Bool

/-- The body of the `try` of `compare_excel_changes`
(src/core/comparison.py lines 161-270), returning the outcome (a normal
return value or the exception that escapes to the top-level handler)
paired with whether `dump_excel_cells_with_timeout` was reached.  The
quick-skip guard reads `settings.QUICK_SKIP_BY_STAT`, an attribute that
config/settings.py never defines, so when no value has been injected
from outside the guard itself raises `AttributeError`. -/
def compareBody (env : CompareEnv) : Except PyExc Bool × Bool :=
  match env.loadBaseline with
  | .error e => (.error e, false)
  | .ok ob =>
    match env.settings.QUICK_SKIP_BY_STAT with
    | none => (.error .attributeError, false)
    | some qs =>
      let tol : Rat := (env.settings.MTIME_TOLERANCE_SEC).getD 2
      let quickSkip : Bool :=
        qs &&
          (match ob with
           | none => false
           | some b =>
             match env.stat1, b.source_mtime, b.source_size with
             | .ok (m, sz), some bm, some bs =>
               decide (sz = bs) && decide (|m - bm| ≤ tol)
             | _, _, _ => false)
      if quickSkip then (.ok false, false)
      else
        let cellsOld := (ob.map Baseline.cells).getD []
        let cd : Option WsMap :=
          if dumpTruthy env.dump1 then env.dump1
          else if dumpTruthy env.dump2 then env.dump2
          else none
        match cd with
        | none => (.ok false, true)
        | some current =>
          if wsMapEqB cellsOld current then (.ok false, true)
          else
            let anyChanges := any_sheet_changes cellsOld current
            if env.silent = false ∧ anyChanges = true then
              match env.displayLogExc with
              | some e => (.error e, true)
              | none =>
                if env.settings.AUTO_UPDATE_BASELINE_AFTER_COMPARE then
                  match env.stat2 with
                  | .error e => (.error e, true)
                  | .ok _ => (.ok anyChanges, true)
                else (.ok anyChanges, true)
            else (.ok anyChanges, true)

/-- What a `compare_excel_changes` call does, seen from outside: the
returned boolean, whether the file contents were read, and whether the
top-level handler logged an error. -/
structure CompareOutcome where
  result : Bool
  dumpCalled : Bool
  errorLoggedTop : Bool
deriving DecidableEq, Repr

/-- src/core/comparison.py lines 157-275, `compare_excel_changes`: the
whole body runs inside one `try`; the `except Exception` handler at
lines 272-275 logs an error (only when not silent) and returns `False`. -/
def compare_excel_changes (env : CompareEnv) : CompareOutcome :=
  match compareBody env with
  | (.ok b, d) => ⟨b, d, false⟩
  | (.error _, d) => ⟨false, d, !env.silent⟩

end Watchdog

namespace Watchdog

/-- C5: when the saved baseline records a source size equal to the
file's current size and a source modification time within the configured
tolerance of the current one, `compare_excel_changes` returns `False`
without ever reaching `dump_excel_cells_with_timeout` — provided the
externally-injectable `QUICK_SKIP_BY_STAT` attribute is not an explicit
`False`.  config/settings.py never defines that attribute, so on the
shipped configuration (`none`) the guard itself raises `AttributeError`
and the top-level handler returns `False` before any read; with an
injected `True` the documented quick-skip branch returns `False` before
any read. -/
theorem C5_quick_skip_no_read (env : CompareEnv) (b : Baseline)
    (m bm : Rat) (sz bs : Int)
    (hqs : env.settings.QUICK_SKIP_BY_STAT ≠ some false)
    (hload : env.loadBaseline = .ok (some b))
    (hbm : b.source_mtime = some bm)
    (hbs : b.source_size = some bs)
    (hstat : env.stat1 = .ok (m, sz))
    (hsz : sz = bs)
    (hm : |m - bm| ≤ (env.settings.MTIME_TOLERANCE_SEC).getD 2) :
    (compare_excel_changes env).result = false ∧
      (compare_excel_changes env).dumpCalled = false := by
  cases hq : env.settings.QUICK_SKIP_BY_STAT with
  | none =>
    unfold compare_excel_changes compareBody
    rw [hload, hq]
    exact ⟨rfl, rfl⟩
  | some qs =>
    cases qs with
    | false => exact absurd hq hqs
    | true =>
      unfold compare_excel_changes compareBody
      rw [hload, hq]
      simp [hstat, hbm, hbs, hsz, hm]

/-- A call on a file whose stats match its baseline exactly, under the
shipped configuration. -/
def quickSkipEnv : CompareEnv where
  settings := defaultSettings
  silent := false
  isPolling := false
  loadBaseline := .ok (some
    ⟨[("S", [("A1", Cell.mk none (some (.int 1)) none)])], some 100, some 5⟩)
  stat1 := .ok (100, 5)
  dump1 := some [("S", [("A1", Cell.mk none (some (.int 2)) none)])]
  dump2 := none
  author := some "alice"
  displayLogExc := none
  stat2 := .ok (101, 6)
  saveOk := true

theorem C5_quick_skip_no_read_witness :
    quickSkipEnv.settings.QUICK_SKIP_BY_STAT ≠ some false ∧
    ((compare_excel_changes quickSkipEnv).result = false ∧
      (compare_excel_changes quickSkipEnv).dumpCalled = false) ∧
    ((compare_excel_changes
        { quickSkipEnv with
          settings := { defaultSettings with QUICK_SKIP_BY_STAT := some true } }).result
        = false ∧
      (compare_excel_changes
        { quickSkipEnv with
          settings := { defaultSettings with QUICK_SKIP_BY_STAT := some true } }).dumpCalled
        = false) :=
  ⟨by decide,
    C5_quick_skip_no_read quickSkipEnv
      ⟨[("S", [("A1", Cell.mk none (some (.int 1)) none)])], some 100, some 5⟩
      100 100 5 5 (by decide) rfl rfl rfl rfl rfl
      (by show |(100 : Rat) - 100| ≤ 2; norm_num),
    C5_quick_skip_no_read
      { quickSkipEnv with
        settings := { defaultSettings with QUICK_SKIP_BY_STAT := some true } }
      ⟨[("S", [("A1", Cell.mk none (some (.int 1)) none)])], some 100, some 5⟩
      100 100 5 5 (by decide) rfl rfl rfl rfl rfl
      (by show |(100 : Rat) - 100| ≤ 2; norm_num)⟩

/-- C6 (counterexample): the claim fails as stated.  On a silent call
(`silent=True`, the quiet check-only pass used by the event router) an
exception from the baseline store is caught and the function returns
`False`, but no error is logged: the top-level handler at
src/core/comparison.py lines 272-274 only calls `logging.error` when
`not silent`. -/
def silentErrEnv : CompareEnv where
  settings := defaultSettings
  silent := true
  isPolling := false
  loadBaseline := .error .osError
  stat1 := .ok (0, 0)
  dump1 := none
  dump2 := none
  author := none
  displayLogExc := none
  stat2 := .ok (0, 0)
  saveOk := true

theorem C6_counterexample :
    (compareBody silentErrEnv).1 = Except.error PyExc.osError ∧
      (compare_excel_changes silentErrEnv).result = false ∧
      (compare_excel_changes silentErrEnv).errorLoggedTop = false :=
  ⟨rfl, rfl, rfl⟩

/-- C6 (amended): `compare_excel_changes` never propagates an exception:
whenever any step of its body (baseline load, the settings attribute
lookup, snapshot reading, display, CSV logging, or the pre-save stat
calls) raises, the top-level handler returns `False`, and it logs an
error exactly when the call was not silent. -/
theorem C6_catch_all_returns_false (env : CompareEnv) (e : PyExc)
    (h : (compareBody env).1 = .error e) :
    (compare_excel_changes env).result = false ∧
      (compare_excel_changes env).errorLoggedTop = !env.silent := by
  unfold compare_excel_changes
  have hb : compareBody env = ((compareBody env).1, (compareBody env).2) := rfl
  rw [hb, h]
  exact ⟨rfl, rfl⟩

theorem C6_catch_all_returns_false_witness :
    (compareBody { silentErrEnv with silent := false }).1 =
        Except.error PyExc.osError ∧
      ((compare_excel_changes { silentErrEnv with silent := false }).result = false ∧
        (compare_excel_changes { silentErrEnv with silent := false }).errorLoggedTop =
          !({ silentErrEnv with silent := false } : CompareEnv).silent) :=
  ⟨rfl, C6_catch_all_returns_false { silentErrEnv with silent := false }
    PyExc.osError rfl⟩

end Watchdog
